import Mathlib

/-!
Verification of the POI extraction pipeline of the
EPLQ-Privacy-Preserving-Location-Based-Queries repository.

The development shallowly embeds the two converter scripts:
- geofabrik_to_csv.py      (legacy text-tree converter), embedded under
  the name prefix GeofabrikCsv;
- geofabrik_to_csv_pbf.py  (converter with PBF support), embedded under
  the name prefix GeofabrikPbf, with the osmium handler as POIHandler.

Python dictionaries of OSM tags are embedded as association lists with
last-binding-wins lookup (matching dict insertion semantics); Python
floats for coordinates are embedded as rationals; Python ints (the POI
caps, which may be negative or zero) as Int; Python string truthiness as
inequality with the empty string; Python None as Option.none.
-/

/-- A tag set: flat key-to-value mapping of one OSM entity, embedded as an
association list.  Lookup returns the last binding for a key, matching the
semantics of building a Python dict by successive insertion. -/
def Tags := List (String × String)

instance : Inhabited Tags := ⟨([] : List (String × String))⟩

instance : DecidableEq Tags := by
  unfold Tags
  exact inferInstance

/-- Lookup of key k, embedding Python dict access: returns the last
binding (dict insertion overwrites earlier ones). -/
def Tags.get (t : Tags) (k : String) : Option String :=
  ((List.reverse t).find? (fun p => p.1 == k)).map Prod.snd

/-- Lookup with default, embedding Python dict.get(k, d). -/
def Tags.getD (t : Tags) (k d : String) : String :=
  (Tags.get t k).getD d

/-- Emptiness of a tag set, embedding Python truthiness of a dict. -/
def Tags.isEmpty (t : Tags) : Bool :=
  match t with
  | [] => true
  | _ :: _ => false

/-- Lower-casing of a string, embedding Python str.lower() for the ASCII
values the categorizer compares. -/
def pyLower (s : String) : String :=
  String.mk (s.toList.map Char.toLower)

/-- Substring test, embedding the Python expression needle in hay. -/
def strContainsSub (hay needle : String) : Bool :=
  let h := hay.toList
  let n := needle.toList
  (List.range (h.length + 1)).any (fun i => List.isPrefixOf n (List.drop i h))

/-- Title-casing helper for pyTitle: the boolean records whether the
previous character was alphabetic. -/
def pyTitleAux : Bool → List Char → List Char
  | _, [] => []
  | prevAlpha, c :: cs =>
    if c.isAlpha then
      (if prevAlpha then c.toLower else c.toUpper) :: pyTitleAux true cs
    else
      c :: pyTitleAux false cs

/-- Title-casing, embedding Python str.title() on the ASCII category
labels (each alphabetic run starts upper-case, rest lower-case; the
underscore is a separator, so "gas_station".title() = "Gas_Station"). -/
def pyTitle (s : String) : String :=
  String.mk (pyTitleAux false s.toList)

/-- Whitespace stripping, embedding Python str.strip(): removes leading
and trailing whitespace characters. -/
def pyStrip (s : String) : String :=
  String.mk (((s.toList.dropWhile Char.isWhitespace).reverse.dropWhile
    Char.isWhitespace).reverse)

/-- A POI record as built by both converter scripts: the dictionary with
keys name, category, latitude, longitude, description. -/
structure POI where
  name : String
  category : String
  latitude : ℚ
  longitude : ℚ
  description : String
deriving DecidableEq

/-- A bounding box as passed on the command line of the PBF script:
min_lat, max_lat, min_lng, max_lng. -/
structure BBox where
  min_lat : ℚ
  max_lat : ℚ
  min_lng : ℚ
  max_lng : ℚ
deriving DecidableEq

/-- Containment test of the bounds check used by both the XML loop and
the handler: min_lat <= lat <= max_lat and min_lng <= lng <= max_lng. -/
def BBox.containsPt (b : BBox) (lat lng : ℚ) : Bool :=
  decide (b.min_lat ≤ lat) && decide (lat ≤ b.max_lat) &&
    decide (b.min_lng ≤ lng) && decide (lng ≤ b.max_lng)

/-- Bounds rejection: with no bounding box nothing is rejected, with one
the point is rejected when not contained (the code's pattern
if not (min_lat <= lat <= max_lat and min_lng <= lng <= max_lng)). -/
def boundsRejects (b : Option BBox) (lat lng : ℚ) : Bool :=
  match b with
  | none => false
  | some bb => !(bb.containsPt lat lng)

/-- Truthiness-guarded cap test, embedding the Python pattern
"if max_pois and len(pois) >= max_pois" where max_pois is None or an int
(0 is falsy, so a cap of None or 0 disables the test). -/
def capReached (c : Option Int) (len : Nat) : Bool :=
  match c with
  | none => false
  | some m => (m != 0) && decide ((len : Int) ≥ m)

/-- Global coordinate validity check of POIHandler.node:
-90 <= lat <= 90 and -180 <= lng <= 180. -/
def validCoord (lat lng : ℚ) : Bool :=
  decide (-90 ≤ lat) && decide (lat ≤ 90) && decide (-180 ≤ lng) && decide (lng ≤ 180)

/-- Categorizer of geofabrik_to_csv.py (function categorize_poi): an
ordered if/elif chain over the tag values; always returns a category,
with "other" as the fallback. -/
def GeofabrikCsv.categorize_poi (tags : Tags) : String :=
  let amenity := Tags.getD tags "amenity" ""
  let shop := Tags.getD tags "shop" ""
  let tourism := Tags.getD tags "tourism" ""
  let healthcare := Tags.getD tags "healthcare" ""
  if ["restaurant", "cafe", "fast_food", "bar", "pub", "food_court"].contains amenity then
    "restaurant"
  else if ["hotel", "guest_house", "hostel", "motel"].contains amenity ||
      ["hotel", "hostel", "guest_house"].contains tourism then
    "hotel"
  else if ["hospital", "clinic", "pharmacy", "dentist", "doctors"].contains amenity ||
      healthcare != "" then
    "hospital"
  else if ["bus_station", "taxi", "fuel", "parking", "ferry_terminal"].contains amenity then
    "transportation"
  else if ["school", "university", "college", "library"].contains amenity then
    "education"
  else if shop != "" || ["marketplace", "mall"].contains amenity then
    "shopping"
  else if ["bank", "atm"].contains amenity then
    "bank"
  else if ["police", "fire_station", "hospital"].contains amenity then
    "emergency"
  else if ["attraction", "museum", "gallery", "zoo", "theme_park"].contains tourism then
    "tourism"
  else if ["cinema", "theatre", "casino", "nightclub"].contains amenity then
    "entertainment"
  else
    "other"

/-- Categorizer of the XML path of geofabrik_to_csv_pbf.py (function
categorize_poi_xml): ordered if/elif chain of ten rules; returns none
when no rule matches. -/
def GeofabrikPbf.categorize_poi_xml (tags : Tags) : Option String :=
  let amenity := Tags.getD tags "amenity" ""
  let shop := Tags.getD tags "shop" ""
  let tourism := Tags.getD tags "tourism" ""
  let healthcare := Tags.getD tags "healthcare" ""
  let railway := Tags.getD tags "railway" ""
  let aeroway := Tags.getD tags "aeroway" ""
  let highway := Tags.getD tags "highway" ""
  let leisure := Tags.getD tags "leisure" ""
  if ["restaurant", "cafe", "fast_food", "bar", "pub", "food_court", "biergarten"].contains amenity then
    some "restaurant"
  else if ["hotel", "guest_house", "hostel", "motel"].contains amenity ||
      ["hotel", "hostel", "guest_house", "motel"].contains tourism then
    some "hotel"
  else if ["hospital", "clinic", "pharmacy", "dentist", "doctors", "veterinary"].contains amenity ||
      healthcare != "" then
    some "hospital"
  else if ["bus_station", "taxi", "fuel", "ferry_terminal"].contains amenity ||
      ["station", "halt", "tram_stop"].contains railway ||
      ["aerodrome", "helipad"].contains aeroway ||
      highway == "bus_stop" then
    some "transportation"
  else if ["fuel", "charging_station"].contains amenity then
    some "gas_station"
  else if shop != "" ||
      ["marketplace", "shopping_centre"].contains amenity ||
      (tourism == "attraction" && strContainsSub (pyLower (Tags.getD tags "name" "")) "market") then
    some "shopping"
  else if ["park", "playground", "sports_centre", "stadium", "swimming_pool", "golf_course"].contains leisure ||
      ["theatre", "cinema", "arts_centre"].contains amenity ||
      ["zoo", "theme_park"].contains tourism then
    some "recreation"
  else if ["school", "university", "college", "kindergarten", "library"].contains amenity then
    some "education"
  else if ["attraction", "museum", "monument", "viewpoint", "gallery", "information"].contains tourism ||
      amenity == "place_of_worship" ||
      Tags.getD tags "historic" "" != "" then
    some "tourism"
  else if ["bank", "atm", "post_office", "police", "fire_station", "courthouse", "townhall"].contains amenity then
    some "services"
  else
    none

/-- Categorizer method POIHandler.categorize_poi of geofabrik_to_csv_pbf.py;
its body is a line-for-line duplicate of categorize_poi_xml. -/
def POIHandler.categorize_poi (tags : Tags) : Option String :=
  let amenity := Tags.getD tags "amenity" ""
  let shop := Tags.getD tags "shop" ""
  let tourism := Tags.getD tags "tourism" ""
  let healthcare := Tags.getD tags "healthcare" ""
  let railway := Tags.getD tags "railway" ""
  let aeroway := Tags.getD tags "aeroway" ""
  let highway := Tags.getD tags "highway" ""
  let leisure := Tags.getD tags "leisure" ""
  if ["restaurant", "cafe", "fast_food", "bar", "pub", "food_court", "biergarten"].contains amenity then
    some "restaurant"
  else if ["hotel", "guest_house", "hostel", "motel"].contains amenity ||
      ["hotel", "hostel", "guest_house", "motel"].contains tourism then
    some "hotel"
  else if ["hospital", "clinic", "pharmacy", "dentist", "doctors", "veterinary"].contains amenity ||
      healthcare != "" then
    some "hospital"
  else if ["bus_station", "taxi", "fuel", "ferry_terminal"].contains amenity ||
      ["station", "halt", "tram_stop"].contains railway ||
      ["aerodrome", "helipad"].contains aeroway ||
      highway == "bus_stop" then
    some "transportation"
  else if ["fuel", "charging_station"].contains amenity then
    some "gas_station"
  else if shop != "" ||
      ["marketplace", "shopping_centre"].contains amenity ||
      (tourism == "attraction" && strContainsSub (pyLower (Tags.getD tags "name" "")) "market") then
    some "shopping"
  else if ["park", "playground", "sports_centre", "stadium", "swimming_pool", "golf_course"].contains leisure ||
      ["theatre", "cinema", "arts_centre"].contains amenity ||
      ["zoo", "theme_park"].contains tourism then
    some "recreation"
  else if ["school", "university", "college", "kindergarten", "library"].contains amenity then
    some "education"
  else if ["attraction", "museum", "monument", "viewpoint", "gallery", "information"].contains tourism ||
      amenity == "place_of_worship" ||
      Tags.getD tags "historic" "" != "" then
    some "tourism"
  else if ["bank", "atm", "post_office", "police", "fire_station", "courthouse", "townhall"].contains amenity then
    some "services"
  else
    none





/-- Description builder of the XML path of geofabrik_to_csv_pbf.py
(function get_description_xml): sequentially appends the labelled fields
that are present, appends the raw value of the description tag, and joins
with a semicolon; the sentinel is returned when no part was collected. -/
def GeofabrikPbf.get_description_xml (tags : Tags) : String :=
  let parts : List String := []
  let parts := match Tags.get tags "amenity" with
    | some v => parts ++ ["Amenity: " ++ v]
    | none => parts
  let parts := match Tags.get tags "shop" with
    | some v => parts ++ ["Shop: " ++ v]
    | none => parts
  let parts := match Tags.get tags "tourism" with
    | some v => parts ++ ["Tourism: " ++ v]
    | none => parts
  let parts := match Tags.get tags "addr:street" with
    | some v => parts ++ ["Street: " ++ v]
    | none => parts
  let parts := match Tags.get tags "addr:city" with
    | some v => parts ++ ["City: " ++ v]
    | none => parts
  let parts := match Tags.get tags "cuisine" with
    | some v => parts ++ ["Cuisine: " ++ v]
    | none => parts
  let parts := match Tags.get tags "description" with
    | some v => parts ++ [v]
    | none => parts
  if parts.isEmpty then "OSM Point of Interest" else String.intercalate "; " parts

/-- Description method POIHandler.get_description of
geofabrik_to_csv_pbf.py; its body is a line-for-line duplicate of
get_description_xml. -/
def POIHandler.get_description (tags : Tags) : String :=
  let parts : List String := []
  let parts := match Tags.get tags "amenity" with
    | some v => parts ++ ["Amenity: " ++ v]
    | none => parts
  let parts := match Tags.get tags "shop" with
    | some v => parts ++ ["Shop: " ++ v]
    | none => parts
  let parts := match Tags.get tags "tourism" with
    | some v => parts ++ ["Tourism: " ++ v]
    | none => parts
  let parts := match Tags.get tags "addr:street" with
    | some v => parts ++ ["Street: " ++ v]
    | none => parts
  let parts := match Tags.get tags "addr:city" with
    | some v => parts ++ ["City: " ++ v]
    | none => parts
  let parts := match Tags.get tags "cuisine" with
    | some v => parts ++ ["Cuisine: " ++ v]
    | none => parts
  let parts := match Tags.get tags "description" with
    | some v => parts ++ [v]
    | none => parts
  if parts.isEmpty then "OSM Point of Interest" else String.intercalate "; " parts




/-- One well-formed node element of a source OSM XML document: the
optional coordinate attributes (an absent or empty attribute string is
embedded as none, a parseable one as its numeric value) and the raw
key/value pairs of its nested tag children in document order. -/
structure RawNode where
  lat : Option ℚ
  lon : Option ℚ
  rawTags : List (String × String)
deriving DecidableEq

/-- One event of an incremental XML parse at node granularity: either a
complete node element, or the point at which the underlying parse raises
(malformed markup mid-stream).  Way elements of the source only reset the
parser state and produce nothing, so they are not represented. -/
inductive NodeEv where
  | node (n : RawNode)
  | fail
deriving DecidableEq

/-- Tag accumulation of both XML loops: a pair is kept only when key and
value are both truthy (the code's "if k and v"). -/
def keptTags (raw : List (String × String)) : Tags :=
  raw.filter (fun p => p.1 != "" && p.2 != "")

/-- Per-node acceptance of the XML loop of geofabrik_to_csv_pbf.py
(body of the end-of-node branch of parse_osm_xml): requires both
coordinates and a non-empty kept tag set, applies the bounds check and
the categorizer, then builds the record; note that no global coordinate
range check occurs on this path. -/
def GeofabrikPbf.processNode (bounds : Option BBox) (n : RawNode) : Option POI :=
  match n.lat, n.lon with
  | some lat, some lon =>
    if Tags.isEmpty (keptTags n.rawTags) then none
    else if boundsRejects bounds lat lon then none
    else
      match GeofabrikPbf.categorize_poi_xml (keptTags n.rawTags) with
      | none => none
      | some category =>
        some ⟨Tags.getD (keptTags n.rawTags) "name" ("Unknown " ++ pyTitle category),
          category, lat, lon, GeofabrikPbf.get_description_xml (keptTags n.rawTags)⟩
  | _, _ => none

/-- Main loop of parse_osm_xml of geofabrik_to_csv_pbf.py over the event
stream: appends each accepted record, breaks once the truthiness-guarded
cap is reached, and on a parse failure returns the empty list (the
except-branch discards everything collected so far). -/
def GeofabrikPbf.xmlLoop (bounds : Option BBox) (max_pois : Option Int) :
    List NodeEv → List POI → List POI
  | [], pois => pois
  | NodeEv.fail :: _, _ => []
  | NodeEv.node n :: rest, pois =>
    match GeofabrikPbf.processNode bounds n with
    | none => GeofabrikPbf.xmlLoop bounds max_pois rest pois
    | some p =>
      let pois2 := pois ++ [p]
      if capReached max_pois pois2.length then pois2
      else GeofabrikPbf.xmlLoop bounds max_pois rest pois2

/-- Function parse_osm_xml of geofabrik_to_csv_pbf.py, at node-event
granularity. -/
def GeofabrikPbf.parse_osm_xml (events : List NodeEv) (bounds : Option BBox)
    (max_pois : Option Int) : List POI :=
  GeofabrikPbf.xmlLoop bounds max_pois events []

/-- Per-node acceptance of parse_osm_xml of geofabrik_to_csv.py: requires
truthy coordinate attributes, a truthy name tag, and one of the four POI
tag families; categorizes (never none there), builds the description from
the first truthy family value plus an optional cuisine suffix, and strips
name and description. -/
def GeofabrikCsv.processNode (n : RawNode) : Option POI :=
  match n.lat, n.lon with
  | some lat, some lon =>
    let tags := keptTags n.rawTags
    let name := Tags.getD tags "name" ""
    if name != "" &&
        (Tags.getD tags "amenity" "" != "" || Tags.getD tags "shop" "" != "" ||
          Tags.getD tags "tourism" "" != "" || Tags.getD tags "healthcare" "" != "") then
      let category := GeofabrikCsv.categorize_poi tags
      let description :=
        let a := Tags.getD tags "amenity" ""
        let s := Tags.getD tags "shop" ""
        let t := Tags.getD tags "tourism" ""
        if a != "" then a else if s != "" then s else t
      let description :=
        let c := Tags.getD tags "cuisine" ""
        if c != "" then description ++ " (" ++ c ++ ")" else description
      some ⟨pyStrip name, category, lat, lon, pyStrip description⟩
    else none
  | _, _ => none

/-- Main loop of parse_osm_xml of geofabrik_to_csv.py: appends each
accepted record, breaks once poi_count >= max_pois (no truthiness guard
on this cap), and on a parse failure the except-branches return 0 POIs,
discarding everything collected. -/
def GeofabrikCsv.xmlLoop (max_pois : Int) : List NodeEv → List POI → List POI
  | [], pois => pois
  | NodeEv.fail :: _, _ => []
  | NodeEv.node n :: rest, pois =>
    match GeofabrikCsv.processNode n with
    | none => GeofabrikCsv.xmlLoop max_pois rest pois
    | some p =>
      let pois2 := pois ++ [p]
      if decide ((pois2.length : Int) ≥ max_pois) then pois2
      else GeofabrikCsv.xmlLoop max_pois rest pois2

/-- Function parse_osm_xml of geofabrik_to_csv.py, at node-event
granularity; the returned list is what the function writes to its
temporary CSV, and its length is the returned count. -/
def GeofabrikCsv.parse_osm_xml (events : List NodeEv) (max_pois : Int) : List POI :=
  GeofabrikCsv.xmlLoop max_pois events []

/-- Per-file loop of process_geofabrik_data of geofabrik_to_csv.py:
each file is parsed with the remaining budget max_pois - total_pois; a
file yielding no records (in particular a failed parse) is skipped and
the loop continues; otherwise its records are appended, the counter is
advanced and the loop breaks once total_pois >= max_pois. -/
def GeofabrikCsv.processLoop (max_pois : Int) :
    List (List NodeEv) → List POI → Int → List POI
  | [], all_pois, _ => all_pois
  | f :: fs, all_pois, total_pois =>
    let pois := GeofabrikCsv.parse_osm_xml f (max_pois - total_pois)
    if pois.length > 0 then
      let all_pois2 := all_pois ++ pois
      let total2 := total_pois + pois.length
      if decide (total2 ≥ max_pois) then all_pois2
      else GeofabrikCsv.processLoop max_pois fs all_pois2 total2
    else GeofabrikCsv.processLoop max_pois fs all_pois total_pois

/-- Function process_geofabrik_data of geofabrik_to_csv.py, restricted to
its multi-file aggregation core (archive extraction and CSV round-trips
through temporary files are identity on the records). -/
def GeofabrikCsv.process_geofabrik_data (files : List (List NodeEv))
    (max_pois : Int) : List POI :=
  GeofabrikCsv.processLoop max_pois files [] 0

/-- One decoded OSM entity as delivered by the osmium library to the
handler's node callback: resolved coordinates and the tag dictionary. -/
structure Entity where
  lat : ℚ
  lon : ℚ
  tags : Tags
deriving DecidableEq

/-- State of class POIHandler of geofabrik_to_csv_pbf.py. -/
structure POIHandler where
  pois : List POI
  bounds : Option BBox
  max_pois : Option Int
  processed_count : Nat
deriving DecidableEq

/-- Constructor of POIHandler. -/
def POIHandler.init (bounds : Option BBox) (max_pois : Option Int) : POIHandler :=
  ⟨[], bounds, max_pois, 0⟩

/-- Method POIHandler.node: returns unchanged state once the
truthiness-guarded cap is reached, applies the bounds check, skips
entities with an empty tag dictionary or no category, validates the
global coordinate range, and appends the record. -/
def POIHandler.node (h : POIHandler) (n : Entity) : POIHandler :=
  if capReached h.max_pois h.pois.length then h
  else if boundsRejects h.bounds n.lat n.lon then h
  else if Tags.isEmpty n.tags then h
  else
    match POIHandler.categorize_poi n.tags with
    | none => h
    | some category =>
      let name := Tags.getD n.tags "name" ("Unknown " ++ pyTitle category)
      let description := POIHandler.get_description n.tags
      if !(validCoord n.lat n.lon) then h
      else { h with pois := h.pois ++ [⟨name, category, n.lat, n.lon, description⟩] }

/-- The osmium driver apply_file, which delivers every entity of the file
to the handler's node callback: the library offers the handler no way to
halt the traversal (the early return inside node only skips the current
entity), so the fold always consumes the whole list.  The second
component counts the callback invocations, i.e. the entities pulled from
the source and processed. -/
def POIHandler.applyFileCounted : POIHandler → List Entity → POIHandler × Nat
  | h, [] => (h, 0)
  | h, n :: ns =>
    let r := POIHandler.applyFileCounted (POIHandler.node h n) ns
    (r.1, r.2 + 1)

/-- Function parse_osm_pbf of geofabrik_to_csv_pbf.py with osmium
available: builds a handler and applies the file, returning its records. -/
def GeofabrikPbf.parse_osm_pbf (entities : List Entity) (bounds : Option BBox)
    (max_pois : Option Int) : List POI :=
  (POIHandler.applyFileCounted (POIHandler.init bounds max_pois) entities).1.pois

/-- One input file of the main loop of geofabrik_to_csv_pbf.py: an XML
file is an event stream; a PBF file either decodes to an entity list or
raises while being decoded. -/
inductive OsmSource where
  | xml (events : List NodeEv)
  | pbf (entities : List Entity)
  | pbfCorrupt
deriving DecidableEq

/-- Outcome of processing one file inside main's try-branch. -/
inductive FileResult where
  | ok (pois : List POI)
  | failed
  | abortRun
deriving DecidableEq

/-- The per-file dispatch of main of geofabrik_to_csv_pbf.py: a .pbf file
with osmium unavailable prints an error and returns exit code 1 (aborting
the whole run); a raising PBF decode is an exception caught by main's
except-branch; otherwise the matching parser runs with the remaining
budget as cap. -/
def GeofabrikPbf.processFile (osmiumAvailable : Bool) (bounds : Option BBox)
    (cap : Int) : OsmSource → FileResult
  | OsmSource.xml events => FileResult.ok (GeofabrikPbf.parse_osm_xml events bounds (some cap))
  | OsmSource.pbf entities =>
    if !osmiumAvailable then FileResult.abortRun
    else FileResult.ok (GeofabrikPbf.parse_osm_pbf entities bounds (some cap))
  | OsmSource.pbfCorrupt =>
    if !osmiumAvailable then FileResult.abortRun
    else FileResult.failed

/-- Result of a run of main of geofabrik_to_csv_pbf.py: either aborted
with exit code 1 at a .pbf file without osmium (records collected so far
are discarded, no CSV is written), or finished with the collected
records. -/
inductive RunOutcome where
  | aborted (all_pois : List POI)
  | finished (all_pois : List POI)
deriving DecidableEq

/-- The records held in all_pois at the end of the loop, whatever the
outcome. -/
def runRecords : RunOutcome → List POI
  | RunOutcome.aborted l => l
  | RunOutcome.finished l => l

/-- The per-file loop of main of geofabrik_to_csv_pbf.py: each file is
processed with cap max_pois - len(all_pois); an exception is caught and
the loop continues with the next file; after a successful file the
records are appended and the loop breaks once the truthiness-guarded
global cap is reached. -/
def GeofabrikPbf.mainLoop (osmiumAvailable : Bool) (max_pois : Int)
    (bounds : Option BBox) : List OsmSource → List POI → RunOutcome
  | [], all_pois => RunOutcome.finished all_pois
  | f :: fs, all_pois =>
    match GeofabrikPbf.processFile osmiumAvailable bounds (max_pois - all_pois.length) f with
    | FileResult.abortRun => RunOutcome.aborted all_pois
    | FileResult.failed => GeofabrikPbf.mainLoop osmiumAvailable max_pois bounds fs all_pois
    | FileResult.ok pois =>
      let all_pois2 := all_pois ++ pois
      if capReached (some max_pois) all_pois2.length then RunOutcome.finished all_pois2
      else GeofabrikPbf.mainLoop osmiumAvailable max_pois bounds fs all_pois2

/-- Per-file contributions of the main loop, in file order: a file whose
processing raised contributes no chunk, and neither do files after the
abort or after the break. -/
def GeofabrikPbf.mainChunks (osmiumAvailable : Bool) (max_pois : Int)
    (bounds : Option BBox) : List OsmSource → List POI → List (List POI)
  | [], _ => []
  | f :: fs, all_pois =>
    match GeofabrikPbf.processFile osmiumAvailable bounds (max_pois - all_pois.length) f with
    | FileResult.abortRun => []
    | FileResult.failed => GeofabrikPbf.mainChunks osmiumAvailable max_pois bounds fs all_pois
    | FileResult.ok pois =>
      pois ::
        (if capReached (some max_pois) (all_pois ++ pois).length then []
         else GeofabrikPbf.mainChunks osmiumAvailable max_pois bounds fs (all_pois ++ pois))

/-- The fixed label table of the description contract: field label and
tag key, in the specified order amenity, shop, tourism, street address,
city, cuisine. -/
def descLabelTable : List (String × String) :=
  [("Amenity", "amenity"), ("Shop", "shop"), ("Tourism", "tourism"),
   ("Street", "addr:street"), ("City", "addr:city"), ("Cuisine", "cuisine")]

/-- The description contract exactly as the claim words it: every present
field among the seven, the free-text description tag included, is
rendered as a labelled "Label: value" part, the parts are joined with
"; ", and the sentinel is returned when none is present. -/
def describeClaimed (tags : Tags) : String :=
  let table := descLabelTable ++ [("Description", "description")]
  let parts := table.filterMap
    (fun lk => (Tags.get tags lk.2).map (fun v => lk.1 ++ ": " ++ v))
  if parts.isEmpty then "OSM Point of Interest" else String.intercalate "; " parts

/-- The description contract as amended: the six labelled fields are
rendered as "Label: value" in the fixed order, the value of the free-text
description tag is appended verbatim (without a label), the parts are
joined with "; ", and the sentinel is returned when none is present. -/
def describeAmended (tags : Tags) : String :=
  let labelled := descLabelTable.filterMap
    (fun lk => (Tags.get tags lk.2).map (fun v => lk.1 ++ ": " ++ v))
  let parts := labelled ++
    (match Tags.get tags "description" with
     | some v => [v]
     | none => [])
  if parts.isEmpty then "OSM Point of Interest" else String.intercalate "; " parts

/-- Acceptance of a single entity by an uncapped handler, read off the
body of POIHandler.node: bounds check, non-empty tag dictionary,
categorizer, global coordinate validation, record construction. -/
def acceptEntity (bounds : Option BBox) (n : Entity) : Option POI :=
  if boundsRejects bounds n.lat n.lon then none
  else if Tags.isEmpty n.tags then none
  else
    match POIHandler.categorize_poi n.tags with
    | none => none
    | some category =>
      if !(validCoord n.lat n.lon) then none
      else
        some ⟨Tags.getD n.tags "name" ("Unknown " ++ pyTitle category), category,
          n.lat, n.lon, POIHandler.get_description n.tags⟩

/-- A node with latitude 100 (outside the valid global range) and a
restaurant tag, used against the XML backend of the PBF script. -/
def c4BadNode : RawNode := ⟨some 100, some 0, [("amenity", "restaurant")]⟩

/-- A named node with latitude 100, used against the legacy XML parser. -/
def c4BadCsvNode : RawNode :=
  ⟨some 100, some 0, [("name", "Cafe X"), ("amenity", "restaurant")]⟩

/-- A well-formed restaurant entity with in-range coordinates. -/
def c4GoodEntity : Entity := ⟨25, 85, [("amenity", "restaurant"), ("name", "Cafe A")]⟩

/-- The record the PBF handler produces for c4GoodEntity. -/
def c4GoodPoi : POI := ⟨"Cafe A", "restaurant", 25, 85, "Amenity: restaurant"⟩

/-- A well-formed restaurant node for an XML file processed after a PBF
file in a multi-file run. -/
def c6XmlNode : RawNode := ⟨some 25, some 85, [("amenity", "restaurant"), ("name", "Cafe B")]⟩

/-- A node whose name tag is a single space: truthy in the legacy
parser's name check, but empty after the final strip. -/
def c8SpaceNode : RawNode := ⟨some 25, some 85, [("name", " "), ("amenity", "restaurant")]⟩

/-- A nameless restaurant node, triggering the synthesized fallback name
in the PBF script's XML backend. -/
def c8GoodNode : RawNode := ⟨some 25, some 85, [("amenity", "restaurant")]⟩

/-- The record the PBF script's XML backend produces for c8GoodNode. -/
def c8GoodPoi : POI := ⟨"Unknown Restaurant", "restaurant", 25, 85, "Amenity: restaurant"⟩

/-- First of two acceptable entities in a PBF file capped at one record. -/
def c9EntityA : Entity := ⟨25, 85, [("amenity", "restaurant"), ("name", "Cafe C")]⟩

/-- Second of two acceptable entities in a PBF file capped at one record. -/
def c9EntityB : Entity := ⟨26, 86, [("amenity", "restaurant"), ("name", "Cafe D")]⟩

/-- Helper: the two textually duplicated categorizers of
geofabrik_to_csv_pbf.py are definitionally equal. -/
theorem handler_categorize_eq_xml (tags : Tags) :
    POIHandler.categorize_poi tags = GeofabrikPbf.categorize_poi_xml tags := rfl

/-- Helper: the two textually duplicated description builders of
geofabrik_to_csv_pbf.py are definitionally equal. -/
theorem handler_description_eq_xml (tags : Tags) :
    POIHandler.get_description tags = GeofabrikPbf.get_description_xml tags := rfl

/-- Helper: the sequential-append description builder agrees with the
fixed-order table formulation of the amended description contract. -/
theorem get_description_xml_eq_amended (tags : Tags) :
    GeofabrikPbf.get_description_xml tags = describeAmended tags := by
  unfold GeofabrikPbf.get_description_xml describeAmended descLabelTable
  cases hA : Tags.get tags "amenity" <;>
    cases hS : Tags.get tags "shop" <;>
      cases hT : Tags.get tags "tourism" <;>
        cases hSt : Tags.get tags "addr:street" <;>
          cases hC : Tags.get tags "addr:city" <;>
            cases hCu : Tags.get tags "cuisine" <;>
              cases hD : Tags.get tags "description" <;>
                simp [hA, hS, hT, hSt, hC, hCu, hD]

/-- C2 counterexample: the tag set with amenity biergarten matches rule 1
(restaurant) of the ten-rule table, so the PBF script's categorizers
return restaurant, but categorize_poi of geofabrik_to_csv.py returns
other: the two scripts do not apply an identical rule table. -/
theorem C2_counterexample :
    GeofabrikPbf.categorize_poi_xml [("amenity", "biergarten")] = some "restaurant" ∧
    POIHandler.categorize_poi [("amenity", "biergarten")] = some "restaurant" ∧
    GeofabrikCsv.categorize_poi [("amenity", "biergarten")] = "other" ∧
    ("other" : String) ≠ "restaurant" :=
  ⟨by decide, by decide, by decide, by decide⟩

/-- C2 amended: within geofabrik_to_csv_pbf.py, the XML-path categorizer
categorize_poi_xml and the binary-entity handler's POIHandler.categorize_poi
return the same category for every tag set: those two parse
representations apply an identical, order-sensitive rule table. -/
theorem C2_amended_same_table (tags : Tags) :
    POIHandler.categorize_poi tags = GeofabrikPbf.categorize_poi_xml tags := rfl

/-- C3: on the tag set with exactly amenity fuel, both categorizers of
geofabrik_to_csv_pbf.py return transportation, not gas_station: the
transportation rule also lists fuel and is evaluated first, so the
gas_station rule is unreachable for amenity fuel, contradicting the
spec and the repository's own tests. -/
theorem C3_fuel_categorized_as_transportation :
    GeofabrikPbf.categorize_poi_xml [("amenity", "fuel")] = some "transportation" ∧
    POIHandler.categorize_poi [("amenity", "fuel")] = some "transportation" ∧
    (some "transportation" : Option String) ≠ some "gas_station" :=
  ⟨by decide, by decide, by decide⟩

/-- C7 counterexample: on the tag set holding only the free-text
description tag, the builder returns the tag's value verbatim, not a
labelled "Label: value" rendering (the output contains no colon at all),
so the claim that each of the seven fields is rendered as
"Label: value" fails on the description field. -/
theorem C7_counterexample :
    GeofabrikPbf.get_description_xml [("description", "historic site")] = "historic site" ∧
    describeClaimed [("description", "historic site")] = "Description: historic site" ∧
    GeofabrikPbf.get_description_xml [("description", "historic site")] ≠
      describeClaimed [("description", "historic site")] ∧
    strContainsSub "historic site" ":" = false :=
  ⟨by decide, by decide, by decide, by decide⟩

/-- C7 amended: both description builders of geofabrik_to_csv_pbf.py
concatenate exactly the present fields among amenity, shop, tourism,
street address, city and cuisine, in that fixed order, each rendered as
"Label: value", followed by the verbatim (unlabelled) value of the
free-text description tag, joined with "; "; and when none of the seven
is present (in particular on the empty tag set) they return the fixed
sentinel string "OSM Point of Interest". -/
theorem C7_amended_description_contract (tags : Tags) :
    GeofabrikPbf.get_description_xml tags = describeAmended tags ∧
    POIHandler.get_description tags = describeAmended tags ∧
    GeofabrikPbf.get_description_xml [] = "OSM Point of Interest" := by
  refine ⟨get_description_xml_eq_amended tags, ?_, by decide⟩
  rw [handler_description_eq_xml]
  exact get_description_xml_eq_amended tags

/-- Helper: with a positive cap, the XML loop of the PBF script never
grows its accumulator beyond the cap: it breaks as soon as the cap is
reached. -/
theorem pbf_xmlLoop_length_le (bounds : Option BBox) (m : Int) (evs : List NodeEv) :
    ∀ pois : List POI, 0 < m → (pois.length : Int) < m →
      ((GeofabrikPbf.xmlLoop bounds (some m) evs pois).length : Int) ≤ m := by
  induction evs with
  | nil =>
    intro pois _ hlt
    unfold GeofabrikPbf.xmlLoop
    exact le_of_lt hlt
  | cons ev rest ih =>
    intro pois hm hlt
    cases ev with
    | fail =>
      unfold GeofabrikPbf.xmlLoop
      simp only [List.length_nil]
      omega
    | node n =>
      unfold GeofabrikPbf.xmlLoop
      cases hp : GeofabrikPbf.processNode bounds n with
      | none => exact ih pois hm hlt
      | some p =>
        simp only
        have h1 : (pois ++ [p]).length = pois.length + 1 := by
          simp
        cases hc : capReached (some m) (pois ++ [p]).length with
        | true =>
          simp only [hc, if_true]
          rw [h1]
          push_cast
          omega
        | false =>
          simp only [hc, if_false, Bool.false_eq_true]
          apply ih _ hm
          simp only [capReached, Bool.and_eq_false_iff, bne_eq_false_iff_eq,
            decide_eq_false_iff_not, not_le] at hc
          rw [h1]
          rw [h1] at hc
          push_cast at hc ⊢
          omega

/-- Helper: POIHandler.node returns its state unchanged once the cap is
reached, and otherwise appends exactly the acceptance result of the
entity (no other field changes). -/
theorem handler_node_eq (h : POIHandler) (n : Entity) :
    POIHandler.node h n =
      if capReached h.max_pois h.pois.length then h
      else { h with pois := h.pois ++ (acceptEntity h.bounds n).toList } := by
  unfold POIHandler.node acceptEntity
  cases hc : capReached h.max_pois h.pois.length with
  | true => simp [hc]
  | false =>
    simp only [hc, Bool.false_eq_true, if_false]
    split
    · simp
    split
    · simp
    cases hcat : POIHandler.categorize_poi n.tags with
    | none => simp
    | some category =>
      simp only
      split
      · simp
      · simp

/-- Helper: the fold of apply_file invokes the node callback once per
entity of the file, whatever the handler state: the count of processed
entities always equals the length of the file's entity list. -/
theorem applyFileCounted_count (ns : List Entity) :
    ∀ h : POIHandler, (POIHandler.applyFileCounted h ns).2 = ns.length := by
  induction ns with
  | nil => intro h; rfl
  | cons n ns ih =>
    intro h
    unfold POIHandler.applyFileCounted
    simp [ih]

/-- Helper: POIHandler.node preserves the bounds and cap fields. -/
theorem handler_node_fields (h : POIHandler) (n : Entity) :
    (POIHandler.node h n).max_pois = h.max_pois ∧
      (POIHandler.node h n).bounds = h.bounds := by
  rw [handler_node_eq]
  split <;> exact ⟨rfl, rfl⟩

/-- Helper: with a positive cap m, the handler's record list never grows
beyond m: node appends nothing once m records are held. -/
theorem handler_applyFile_pois_le (m : Int) (hm : 0 < m) (ns : List Entity) :
    ∀ h : POIHandler, h.max_pois = some m → (h.pois.length : Int) ≤ m →
      (((POIHandler.applyFileCounted h ns).1).pois.length : Int) ≤ m := by
  induction ns with
  | nil => intro h _ hle; exact hle
  | cons n ns ih =>
    intro h hmax hle
    unfold POIHandler.applyFileCounted
    simp only
    apply ih
    · rw [(handler_node_fields h n).1, hmax]
    · rw [handler_node_eq]
      cases hc : capReached h.max_pois h.pois.length with
      | true => simpa using hle
      | false =>
        simp only [Bool.false_eq_true, if_false]
        rw [hmax] at hc
        simp only [capReached, Bool.and_eq_false_iff, bne_eq_false_iff_eq,
          decide_eq_false_iff_not, not_le] at hc
        have hlt : (h.pois.length : Int) < m := by omega
        cases acceptEntity h.bounds n with
        | none => simpa using hlt.le
        | some p =>
          simp only [Option.toList_some, List.length_append, List.length_cons,
            List.length_nil]
          push_cast
          omega

/-- Helper: a file that is processed successfully with a positive
remaining budget yields at most that many records, on either backend. -/
theorem processFile_ok_length_le (avail : Bool) (bounds : Option BBox) (cap : Int)
    (f : OsmSource) (pois : List POI) (hcap : 0 < cap)
    (h : GeofabrikPbf.processFile avail bounds cap f = FileResult.ok pois) :
    (pois.length : Int) ≤ cap := by
  cases f with
  | xml events =>
    simp only [GeofabrikPbf.processFile, FileResult.ok.injEq] at h
    subst h
    apply pbf_xmlLoop_length_le bounds cap events [] hcap
    simpa using hcap
  | pbf entities =>
    simp only [GeofabrikPbf.processFile] at h
    split at h
    · exact absurd h (by simp)
    · simp only [FileResult.ok.injEq] at h
      subst h
      apply handler_applyFile_pois_le cap hcap entities _ rfl
      simpa using hcap.le
  | pbfCorrupt =>
    simp only [GeofabrikPbf.processFile] at h
    split at h <;> exact absurd h (by simp)

/-- Helper: with a positive global cap K, the per-file loop of main of
geofabrik_to_csv_pbf.py keeps its accumulator within K. -/
theorem pbf_mainLoop_length_le (avail : Bool) (K : Int) (bounds : Option BBox)
    (files : List OsmSource) :
    ∀ acc : List POI, 0 < K → (acc.length : Int) < K →
      ((runRecords (GeofabrikPbf.mainLoop avail K bounds files acc)).length : Int) ≤ K := by
  induction files with
  | nil =>
    intro acc _ hlt
    exact hlt.le
  | cons f fs ih =>
    intro acc hK hlt
    unfold GeofabrikPbf.mainLoop
    cases hr : GeofabrikPbf.processFile avail bounds (K - acc.length) f with
    | abortRun => exact hlt.le
    | failed => exact ih acc hK hlt
    | ok pois =>
      simp only
      have hple : (pois.length : Int) ≤ K - acc.length :=
        processFile_ok_length_le avail bounds _ f pois (by omega) hr
      have hlen : ((acc ++ pois).length : Int) ≤ K := by
        simp only [List.length_append]
        push_cast
        omega
      cases hc : capReached (some K) (acc ++ pois).length with
      | true =>
        simp only [hc, if_true, runRecords]
        exact hlen
      | false =>
        simp only [hc, Bool.false_eq_true, if_false]
        apply ih _ hK
        simp only [capReached, Bool.and_eq_false_iff, bne_eq_false_iff_eq,
          decide_eq_false_iff_not, not_le] at hc
        omega

/-- Helper: with a positive cap, the XML loop of the legacy script never
grows its accumulator beyond the cap. -/
theorem csv_xmlLoop_length_le (m : Int) (evs : List NodeEv) :
    ∀ pois : List POI, 0 < m → (pois.length : Int) < m →
      ((GeofabrikCsv.xmlLoop m evs pois).length : Int) ≤ m := by
  induction evs with
  | nil =>
    intro pois _ hlt
    exact hlt.le
  | cons ev rest ih =>
    intro pois hm hlt
    cases ev with
    | fail =>
      unfold GeofabrikCsv.xmlLoop
      simp only [List.length_nil]
      omega
    | node n =>
      unfold GeofabrikCsv.xmlLoop
      cases hp : GeofabrikCsv.processNode n with
      | none => exact ih pois hm hlt
      | some p =>
        simp only
        have h1 : (pois ++ [p]).length = pois.length + 1 := by
          simp
        cases hc : decide (((pois ++ [p]).length : Int) ≥ m) with
        | true =>
          simp only [hc, if_true]
          rw [h1]
          push_cast
          omega
        | false =>
          simp only [hc, Bool.false_eq_true, if_false]
          apply ih _ hm
          simp only [decide_eq_false_iff_not, not_le] at hc
          rw [h1]
          rw [h1] at hc
          push_cast at hc ⊢
          omega

/-- Helper: with a positive global cap K, the per-file loop of
process_geofabrik_data keeps its accumulator within K; the counter
total_pois always mirrors the accumulator length. -/
theorem csv_processLoop_length_le (K : Int) (files : List (List NodeEv)) :
    ∀ (acc : List POI) (total : Int), 0 < K → total = (acc.length : Int) →
      (acc.length : Int) < K →
      ((GeofabrikCsv.processLoop K files acc total).length : Int) ≤ K := by
  induction files with
  | nil =>
    intro acc total _ _ hlt
    exact hlt.le
  | cons f fs ih =>
    intro acc total hK htot hlt
    simp only [GeofabrikCsv.processLoop]
    have hb : ((GeofabrikCsv.parse_osm_xml f (K - total)).length : Int) ≤ K - total := by
      apply csv_xmlLoop_length_le (K - total) f [] (by omega)
      simp only [List.length_nil]
      push_cast
      omega
    split
    · split
      · simp only [List.length_append]
        push_cast
        omega
      · next h2 =>
          simp only [decide_eq_true_eq, not_le] at h2
          refine ih _ _ hK ?_ ?_
          · simp only [List.length_append]
            push_cast
            omega
          · simp only [List.length_append]
            push_cast
            omega
    · exact ih acc total hK htot hlt

/-- C1: for every positive global cap K, every file list and every
distribution of acceptable POIs across the files, the multi-file
aggregation of both scripts (main's per-file loop of the PBF script,
which passes each file the remaining budget and breaks once K is
reached, and process_geofabrik_data of the legacy script) emits at most
K records in total. -/
theorem C1_global_cap (K : Int) (hK : 0 < K) (avail : Bool) (bounds : Option BBox)
    (files : List OsmSource) (legacyFiles : List (List NodeEv)) :
    ((runRecords (GeofabrikPbf.mainLoop avail K bounds files [])).length : Int) ≤ K ∧
    ((GeofabrikCsv.process_geofabrik_data legacyFiles K).length : Int) ≤ K := by
  constructor
  · apply pbf_mainLoop_length_le avail K bounds files [] hK
    simpa using hK
  · unfold GeofabrikCsv.process_geofabrik_data
    apply csv_processLoop_length_le K legacyFiles [] 0 hK (by simp)
    simpa using hK

/-- C1 witness: a run over one XML file holding two acceptable
restaurant nodes, with global cap 1, stays within the cap. -/
theorem C1_global_cap_witness :
    (0 : Int) < 1 ∧
    ((runRecords (GeofabrikPbf.mainLoop true 1 none
        [OsmSource.xml
          [NodeEv.node ⟨some 25, some 85, [("amenity", "restaurant")]⟩,
           NodeEv.node ⟨some 26, some 86, [("amenity", "cafe")]⟩]] [])).length : Int) ≤ 1 ∧
    ((GeofabrikCsv.process_geofabrik_data
        [[NodeEv.node ⟨some 25, some 85, [("name", "A"), ("amenity", "restaurant")]⟩,
          NodeEv.node ⟨some 26, some 86, [("name", "B"), ("amenity", "cafe")]⟩]]
        1).length : Int) ≤ 1 :=
  ⟨by decide, C1_global_cap 1 (by decide) true none
    [OsmSource.xml
      [NodeEv.node ⟨some 25, some 85, [("amenity", "restaurant")]⟩,
       NodeEv.node ⟨some 26, some 86, [("amenity", "cafe")]⟩]]
    [[NodeEv.node ⟨some 25, some 85, [("name", "A"), ("amenity", "restaurant")]⟩,
      NodeEv.node ⟨some 26, some 86, [("name", "B"), ("amenity", "cafe")]⟩]]⟩

/-- Helper: whenever the acceptance of an entity by the handler produces
a record, that record passed the global coordinate validation. -/
theorem acceptEntity_valid (b : Option BBox) (n : Entity) (p : POI)
    (hp : acceptEntity b n = some p) :
    validCoord p.latitude p.longitude = true := by
  unfold acceptEntity at hp
  split at hp
  · exact absurd hp (by simp)
  split at hp
  · exact absurd hp (by simp)
  cases hcat : POIHandler.categorize_poi n.tags with
  | none =>
    rw [hcat] at hp
    exact absurd hp (by simp)
  | some category =>
    rw [hcat] at hp
    simp only at hp
    split at hp
    · exact absurd hp (by simp)
    · next hval =>
        simp only [Option.some.injEq] at hp
        subst hp
        simpa using hval

/-- Helper: the handler only ever appends records that passed the global
coordinate validation. -/
theorem handler_applyFile_valid (ns : List Entity) :
    ∀ h : POIHandler, (∀ q ∈ h.pois, validCoord q.latitude q.longitude = true) →
      ∀ q ∈ ((POIHandler.applyFileCounted h ns).1).pois,
        validCoord q.latitude q.longitude = true := by
  induction ns with
  | nil => intro h hh; exact hh
  | cons n ns ih =>
    intro h hh
    unfold POIHandler.applyFileCounted
    simp only
    apply ih
    intro q hq
    rw [handler_node_eq] at hq
    split at hq
    · exact hh q hq
    · simp only [List.mem_append] at hq
      rcases hq with hq | hq
      · exact hh q hq
      · cases hacc : acceptEntity h.bounds n with
        | none =>
          rw [hacc] at hq
          simp at hq
        | some p =>
          rw [hacc] at hq
          simp only [Option.toList_some, List.mem_singleton] at hq
          subst hq
          exact acceptEntity_valid _ _ _ hacc

/-- C4 counterexample: a node with latitude 100 (out of the valid global
range) and a restaurant tag is emitted as a record by the XML backends of
both scripts when no bounding box is given: only the PBF handler rejects
out-of-range coordinates. -/
theorem C4_counterexample :
    (GeofabrikPbf.parse_osm_xml [NodeEv.node c4BadNode] none (some 1000)).map POI.latitude
        = [100] ∧
    (GeofabrikCsv.parse_osm_xml [NodeEv.node c4BadCsvNode] 1000).map POI.latitude = [100] ∧
    ¬ ((100 : ℚ) ≤ 90) :=
  ⟨by decide, by decide, by decide⟩

/-- C4 amended: every record emitted by the binary-entity backend
(POIHandler driven by parse_osm_pbf) has latitude in the interval from
-90 to 90 and longitude in the interval from -180 to 180, for every
entity stream, cap and bounding box; the XML backends of both scripts do
not perform this global-range validation. -/
theorem C4_amended_handler_validates (bounds : Option BBox) (max_pois : Option Int)
    (ns : List Entity) (p : POI)
    (hp : p ∈ GeofabrikPbf.parse_osm_pbf ns bounds max_pois) :
    -90 ≤ p.latitude ∧ p.latitude ≤ 90 ∧ -180 ≤ p.longitude ∧ p.longitude ≤ 180 := by
  have hv : validCoord p.latitude p.longitude = true := by
    apply handler_applyFile_valid ns (POIHandler.init bounds max_pois) _ p hp
    intro q hq
    exact absurd hq (by simp [POIHandler.init])
  simpa [validCoord, Bool.and_eq_true, decide_eq_true_eq, and_assoc] using hv

/-- C4 witness: the record the handler produces for a well-formed
restaurant entity at latitude 25, longitude 85 satisfies the coordinate
ranges. -/
theorem C4_amended_witness :
    c4GoodPoi ∈ GeofabrikPbf.parse_osm_pbf [c4GoodEntity] none (some 1000) ∧
    (-90 ≤ c4GoodPoi.latitude ∧ c4GoodPoi.latitude ≤ 90 ∧
      -180 ≤ c4GoodPoi.longitude ∧ c4GoodPoi.longitude ≤ 180) :=
  ⟨by decide, C4_amended_handler_validates none (some 1000) [c4GoodEntity] c4GoodPoi (by decide)⟩

/-- Helper: the records at the end of the main loop are the starting
accumulator followed by the per-file contributions, in file order. -/
theorem mainLoop_records_eq_chunks (avail : Bool) (K : Int) (bounds : Option BBox)
    (files : List OsmSource) :
    ∀ acc : List POI,
      runRecords (GeofabrikPbf.mainLoop avail K bounds files acc) =
        acc ++ (GeofabrikPbf.mainChunks avail K bounds files acc).flatten := by
  induction files with
  | nil =>
    intro acc
    simp [GeofabrikPbf.mainLoop, GeofabrikPbf.mainChunks, runRecords]
  | cons f fs ih =>
    intro acc
    unfold GeofabrikPbf.mainLoop GeofabrikPbf.mainChunks
    cases hr : GeofabrikPbf.processFile avail bounds (K - acc.length) f with
    | abortRun => simp [runRecords]
    | failed => exact ih acc
    | ok pois =>
      simp only
      cases hc : capReached (some K) (acc ++ pois).length with
      | true => simp [hc, runRecords]
      | false =>
        simp only [hc, Bool.false_eq_true, if_false, List.flatten_cons]
        rw [ih (acc ++ pois)]
        simp [List.append_assoc]

/-- C5: a file whose parse raises mid-stream contributes exactly zero
records: both XML loops discard everything collected so far and yield
the empty list; the aggregate loops of both scripts skip such a file and
continue with the remaining files (the PBF script likewise survives a
raising binary decode); and the final record count of a run equals the
sum of the per-file counts of the files that were processed
successfully. -/
theorem C5_parse_failure_isolation :
    (∀ (rest : List NodeEv) (pois : List POI) (bounds : Option BBox) (cap : Option Int),
        GeofabrikPbf.xmlLoop bounds cap (NodeEv.fail :: rest) pois = []) ∧
    (∀ (rest : List NodeEv) (pois : List POI) (cap : Int),
        GeofabrikCsv.xmlLoop cap (NodeEv.fail :: rest) pois = []) ∧
    (∀ (avail : Bool) (K : Int) (bounds : Option BBox) (rest : List NodeEv)
        (fs : List OsmSource) (acc : List POI),
        GeofabrikPbf.mainLoop avail K bounds (OsmSource.xml (NodeEv.fail :: rest) :: fs) acc =
          if capReached (some K) acc.length then RunOutcome.finished acc
          else GeofabrikPbf.mainLoop avail K bounds fs acc) ∧
    (∀ (K : Int) (bounds : Option BBox) (fs : List OsmSource) (acc : List POI),
        GeofabrikPbf.mainLoop true K bounds (OsmSource.pbfCorrupt :: fs) acc =
          GeofabrikPbf.mainLoop true K bounds fs acc) ∧
    (∀ (K : Int) (fs : List (List NodeEv)) (acc : List POI) (total : Int)
        (rest : List NodeEv),
        GeofabrikCsv.processLoop K ((NodeEv.fail :: rest) :: fs) acc total =
          GeofabrikCsv.processLoop K fs acc total) ∧
    (∀ (avail : Bool) (K : Int) (bounds : Option BBox) (files : List OsmSource),
        (runRecords (GeofabrikPbf.mainLoop avail K bounds files [])).length =
          ((GeofabrikPbf.mainChunks avail K bounds files []).map List.length).sum) := by
  refine ⟨fun _ _ _ _ => rfl, fun _ _ _ => rfl, ?_, ?_, ?_, ?_⟩
  · intro avail K bounds rest fs acc
    simp [GeofabrikPbf.mainLoop, GeofabrikPbf.processFile, GeofabrikPbf.parse_osm_xml,
      GeofabrikPbf.xmlLoop]
  · intro K bounds fs acc
    simp [GeofabrikPbf.mainLoop, GeofabrikPbf.processFile]
  · intro K fs acc total rest
    simp [GeofabrikCsv.processLoop, GeofabrikCsv.parse_osm_xml, GeofabrikCsv.xmlLoop]
  · intro avail K bounds files
    rw [mainLoop_records_eq_chunks avail K bounds files []]
    simp [List.length_flatten]

/-- C6 counterexample: with the osmium decoder unavailable, a run over a
PBF file followed by an XML file aborts at the PBF file with zero
records, although the XML file on its own yields a record and does not
need the missing backend: the run as a whole is aborted, not just the
one file. -/
theorem C6_counterexample :
    GeofabrikPbf.mainLoop false 1000 none
        [OsmSource.pbf [], OsmSource.xml [NodeEv.node c6XmlNode]] [] =
      RunOutcome.aborted [] ∧
    GeofabrikPbf.parse_osm_xml [NodeEv.node c6XmlNode] none (some 1000) =
      [⟨"Cafe B", "restaurant", 25, 85, "Amenity: restaurant"⟩] :=
  ⟨by decide, by decide⟩

/-- C6 amended: when binary-entity decoding is requested for a file in a
multi-file run but the decoder library is not installed, main prints an
error and returns exit code 1 immediately: the whole run is aborted and
the remaining files, whether or not they need that backend, are not
processed. -/
theorem C6_amended_run_aborts (K : Int) (bounds : Option BBox)
    (entities : List Entity) (fs : List OsmSource) (acc : List POI) :
    GeofabrikPbf.mainLoop false K bounds (OsmSource.pbf entities :: fs) acc =
      RunOutcome.aborted acc ∧
    GeofabrikPbf.mainLoop false K bounds (OsmSource.pbfCorrupt :: fs) acc =
      RunOutcome.aborted acc := by
  constructor <;> simp [GeofabrikPbf.mainLoop, GeofabrikPbf.processFile]

/-- Helper: a value looked up in a kept tag set is never the empty
string, because the tag filter only keeps pairs whose key and value are
both truthy. -/
theorem keptTags_get_ne (raw : List (String × String)) (k v : String)
    (h : Tags.get (keptTags raw) k = some v) : v ≠ "" := by
  unfold Tags.get at h
  cases hf : (List.reverse (keptTags raw)).find? (fun p => p.1 == k) with
  | none =>
    rw [hf] at h
    simp at h
  | some pr =>
    rw [hf] at h
    simp only [Option.map_some'] at h
    have hmem := List.mem_of_find?_eq_some hf
    rw [List.mem_reverse] at hmem
    have hpred := List.of_mem_filter hmem
    simp only [Bool.and_eq_true, bne_iff_ne, ne_eq] at hpred
    cases h
    exact hpred.2

/-- Helper: the synthesized fallback name is never empty. -/
theorem unknown_name_ne_empty (s : String) : ("Unknown " ++ s) ≠ "" := by
  intro h
  have hlen := congrArg String.length h
  rw [String.length_append] at hlen
  have h8 : ("Unknown " : String).length = 8 := rfl
  have h0 : ("" : String).length = 0 := rfl
  rw [h8, h0] at hlen
  omega

/-- Helper: every record the per-node acceptance of the PBF script's XML
backend produces has a non-empty name: the kept tag set has no empty
values and the fallback label is non-empty. -/
theorem pbf_processNode_name_ne (bounds : Option BBox) (n : RawNode) (p : POI)
    (hp : GeofabrikPbf.processNode bounds n = some p) : p.name ≠ "" := by
  unfold GeofabrikPbf.processNode at hp
  split at hp
  · split at hp
    · exact absurd hp (by simp)
    split at hp
    · exact absurd hp (by simp)
    cases hcat : GeofabrikPbf.categorize_poi_xml (keptTags n.rawTags) with
    | none =>
      rw [hcat] at hp
      exact absurd hp (by simp)
    | some category =>
      rw [hcat] at hp
      simp only [Option.some.injEq] at hp
      subst hp
      simp only
      unfold Tags.getD
      cases hg : Tags.get (keptTags n.rawTags) "name" with
      | none =>
        simp only [hg, Option.getD_none]
        exact unknown_name_ne_empty _
      | some v =>
        simp only [hg, Option.getD_some]
        exact keptTags_get_ne n.rawTags "name" v hg
  · exact absurd hp (by simp)

/-- Helper: the XML loop of the PBF script only ever appends records with
a non-empty name. -/
theorem pbf_xmlLoop_name_ne (bounds : Option BBox) (cap : Option Int)
    (evs : List NodeEv) :
    ∀ pois : List POI, (∀ q ∈ pois, q.name ≠ "") →
      ∀ q ∈ GeofabrikPbf.xmlLoop bounds cap evs pois, q.name ≠ "" := by
  induction evs with
  | nil => intro pois h q hq; exact h q hq
  | cons ev rest ih =>
    intro pois h
    cases ev with
    | fail =>
      intro q hq
      unfold GeofabrikPbf.xmlLoop at hq
      simp at hq
    | node n =>
      unfold GeofabrikPbf.xmlLoop
      cases hp : GeofabrikPbf.processNode bounds n with
      | none => exact ih pois h
      | some p =>
        simp only
        have h2 : ∀ q ∈ pois ++ [p], q.name ≠ "" := by
          intro q hq
          rcases List.mem_append.1 hq with hq | hq
          · exact h q hq
          · rw [List.mem_singleton] at hq
            subst hq
            exact pbf_processNode_name_ne bounds n q hp
        split
        · exact h2
        · exact ih _ h2

/-- C8 counterexample: the legacy parser accepts a node whose name tag is
a single space (truthy in its name check) and then strips it, emitting a
record whose name is the empty string. -/
theorem C8_counterexample :
    (GeofabrikCsv.parse_osm_xml [NodeEv.node c8SpaceNode] 1000).map POI.name = [""] := by
  decide

/-- C8 amended: every record emitted by the XML backend of
geofabrik_to_csv_pbf.py has a non-empty name: the tag filter keeps only
non-empty values and a missing name tag falls back to the synthesized
label built from "Unknown "; the legacy script, by contrast, can emit an
empty name when the name tag is whitespace-only, because it strips the
name after the truthiness check. -/
theorem C8_amended_name_nonempty (events : List NodeEv) (bounds : Option BBox)
    (cap : Option Int) (p : POI)
    (hp : p ∈ GeofabrikPbf.parse_osm_xml events bounds cap) : p.name ≠ "" := by
  apply pbf_xmlLoop_name_ne bounds cap events [] _ p hp
  intro q hq
  exact absurd hq (by simp)

/-- C8 witness: the record synthesized for a nameless restaurant node by
the PBF script's XML backend has the non-empty fallback name. -/
theorem C8_amended_witness :
    c8GoodPoi ∈ GeofabrikPbf.parse_osm_xml [NodeEv.node c8GoodNode] none (some 1000) ∧
    c8GoodPoi.name ≠ "" :=
  ⟨by decide,
   C8_amended_name_nonempty [NodeEv.node c8GoodNode] none (some 1000) c8GoodPoi (by decide)⟩

/-- C9 counterexample: with a per-file cap of 1 and a file of two
acceptable entities, the handler holds exactly one record at the end,
yet both entities of the file were delivered to and processed by the
node callback: reaching the cap does not stop the underlying decode
(osmium's apply_file offers the handler no way to halt the traversal,
and node merely returns early on each further entity). -/
theorem C9_counterexample :
    (POIHandler.applyFileCounted (POIHandler.init none (some 1))
        [c9EntityA, c9EntityB]).1.pois.length = 1 ∧
    (POIHandler.applyFileCounted (POIHandler.init none (some 1))
        [c9EntityA, c9EntityB]).2 = 2 :=
  ⟨by decide, by decide⟩

/-- C9 amended: once the binary-entity adapter has accepted its per-file
cap of records it accepts no further record - the final record count
never exceeds a positive cap - but the underlying decode is not stopped
early: every entity of the file is still pulled and processed by the
node callback, which merely rejects each one. -/
theorem C9_amended_cap_respected_decode_not_stopped (bounds : Option BBox)
    (m : Int) (ns : List Entity) (hm : 0 < m) :
    (((POIHandler.applyFileCounted (POIHandler.init bounds (some m)) ns).1.pois.length : Int)
        ≤ m) ∧
    (POIHandler.applyFileCounted (POIHandler.init bounds (some m)) ns).2 = ns.length := by
  constructor
  · apply handler_applyFile_pois_le m hm ns _ rfl
    simpa using hm.le
  · exact applyFileCounted_count ns _

/-- C9 witness: the amended statement at the concrete two-entity file
with cap 1. -/
theorem C9_amended_witness :
    (0 : Int) < 1 ∧
    (((POIHandler.applyFileCounted (POIHandler.init none (some 1))
        [c9EntityA, c9EntityB]).1.pois.length : Int) ≤ 1) ∧
    (POIHandler.applyFileCounted (POIHandler.init none (some 1))
        [c9EntityA, c9EntityB]).2 = [c9EntityA, c9EntityB].length :=
  ⟨by decide,
   C9_amended_cap_respected_decode_not_stopped none 1 [c9EntityA, c9EntityB] (by decide)⟩

/-- Helper: with the cap test disabled (max_pois of 0 or None), the
handler accepts every acceptable entity of the file: the fold is exactly
a filterMap of the per-entity acceptance. -/
theorem handler_applyFile_uncapped (ns : List Entity) :
    ∀ h : POIHandler, (h.max_pois = some 0 ∨ h.max_pois = none) →
      ((POIHandler.applyFileCounted h ns).1).pois =
        h.pois ++ ns.filterMap (acceptEntity h.bounds) := by
  induction ns with
  | nil =>
    intro h _
    simp [POIHandler.applyFileCounted]
  | cons n ns ih =>
    intro h hcap
    have hcr : capReached h.max_pois h.pois.length = false := by
      rcases hcap with h0 | h0 <;> rw [h0] <;> rfl
    have hnode : POIHandler.node h n =
        { h with pois := h.pois ++ (acceptEntity h.bounds n).toList } := by
      rw [handler_node_eq]
      simp [hcr]
    unfold POIHandler.applyFileCounted
    simp only
    rw [hnode]
    rw [ih _ (by rcases hcap with h0 | h0 <;> simp [h0])]
    cases hacc : acceptEntity h.bounds n <;>
      simp [List.filterMap_cons, hacc]

/-- C10: constructing POIHandler with max_pois equal to 0 (or None)
disables the per-file cap check entirely - the Python truthiness guard
treats both as falsy - so a caller that passes a remaining budget of
exactly 0 to the binary backend receives every acceptable POI of the
file rather than zero records. -/
theorem C10_cap_zero_disabled (bounds : Option BBox) (ns : List Entity) :
    GeofabrikPbf.parse_osm_pbf ns bounds (some 0) = ns.filterMap (acceptEntity bounds) ∧
    GeofabrikPbf.parse_osm_pbf ns bounds none = ns.filterMap (acceptEntity bounds) := by
  constructor
  · unfold GeofabrikPbf.parse_osm_pbf
    rw [handler_applyFile_uncapped ns (POIHandler.init bounds (some 0)) (by simp [POIHandler.init])]
    simp [POIHandler.init]
  · unfold GeofabrikPbf.parse_osm_pbf
    rw [handler_applyFile_uncapped ns (POIHandler.init bounds none) (by simp [POIHandler.init])]
    simp [POIHandler.init]
